import Mathlib

/-!
Shallow embedding of the secure-wallet-api core (API-key lifecycle, ledger,
webhook reconciler) and proofs about its specification claims.

Conventions of the embedding:
* Python `datetime` values are modelled by `DTime`: an integer timestamp in
  seconds together with an `aware` flag recording whether the value carries
  timezone information (`datetime.now(timezone.utc)` is aware,
  `datetime.utcnow()` is naive).
* Python `Decimal` money values are modelled by `ℚ` (all operations the code
  performs on them - addition, subtraction, division by 100, comparison -
  are exact in `Decimal`).
* Database rows are records in lists; SQLAlchemy `select ... where` queries
  become `List.filter` / `List.find?`; `db.commit` / rollback semantics of an
  `async with db.begin()` block become: a function either returns the updated
  state or an error with the state it leaves behind.
* Randomness (`secrets.token_urlsafe`) is modelled by an explicit supply
  `secrets : Nat → String` of candidate key strings, and the SHA-256 digest by
  an explicit function `hashFn : String → String`.
-/

/-- A Python datetime: timestamp in seconds plus timezone-awareness flag. -/
structure DTime where
  t : Int
  aware : Bool
deriving DecidableEq, Repr

/-- Models `datetime.now(timezone.utc)`: an aware timestamp. -/
def datetime_now_utc (t : Int) : DTime := ⟨t, true⟩

/-- Models `datetime.utcnow()`: a naive timestamp. -/
def datetime_utcnow (t : Int) : DTime := ⟨t, false⟩

/-- Comparison `a > b` on datetimes (the stored numeric comparison). -/
def dt_gt (a b : DTime) : Bool := b.t < a.t

/-- True when the two datetimes mix a naive and an aware value, the hazard
the spec requires every expiry comparison to avoid. -/
def mixes_naive_aware (a b : DTime) : Bool := a.aware != b.aware

/-- Models lines 50-51 / 117-118 of api_keys_service.py:
`if expires_at.tzinfo is None: expires_at = expires_at.replace(tzinfo=utc)`. -/
def tz_normalize (d : DTime) : DTime := if d.aware then d else ⟨d.t, true⟩

/-- The "now" used by the quota count in create_api_key and
rollover_api_key (api_keys_service.py lines 61 and 144):
`datetime.now(timezone.utc)`. -/
def service_quota_now (t : Int) : DTime := datetime_now_utc t

/-- The "now" used by rollover's not-yet-expired check
(api_keys_service.py line 131): `datetime.now(timezone.utc)`. -/
def rollover_expiry_now (t : Int) : DTime := datetime_now_utc t

/-- The "now" used by APIKeyRepository.count_active_keys
(api_keys_repository.py line 41): `datetime.utcnow()`, naive. -/
def repo_count_now (t : Int) : DTime := datetime_utcnow t

/-- The "now" used by APIKeyRepository.get_user_keys
(api_keys_repository.py line 58): `datetime.utcnow()`, naive. -/
def repo_list_now (t : Int) : DTime := datetime_utcnow t

/-- Errors raised by the API-key layer (ValueError / LookupError variants). -/
inductive KeyError where
  | invalidExpiry
  | quotaExceeded
  | keyGenExhausted
  | keyNotFound
  | notExpiredYet
  | alreadyRevoked
deriving DecidableEq, Repr

/-- Models src/utils/security.py `parse_expiry`: maps the four codes to
`datetime.now(timezone.utc)` plus a fixed offset, raising ValueError
(invalidExpiry) on any other string. All results are timezone-aware. -/
def parse_expiry (expiry : String) (now : Int) : Except KeyError DTime :=
  if expiry = "1H" then .ok ⟨now + 3600, true⟩
  else if expiry = "1D" then .ok ⟨now + 86400, true⟩
  else if expiry = "1M" then .ok ⟨now + 30 * 86400, true⟩
  else if expiry = "1Y" then .ok ⟨now + 365 * 86400, true⟩
  else .error .invalidExpiry

/-- An APIKey row (src/models/api_key_model.py). Field order: id, user_id,
name, key_hash, key_prefix, permissions, is_active, is_revoked, expires_at.
Column defaults: is_active true, is_revoked false. -/
structure APIKey where
  id : Nat
  user_id : Nat
  name : String
  key_hash : String
  key_prefix : String
  permissions : List String
  is_active : Bool
  is_revoked : Bool
  expires_at : DTime
deriving DecidableEq, Repr

/-- Quota constant MAX_ACTIVE_KEYS of APIKeyService. -/
def MAX_ACTIVE_KEYS : Nat := 5

/-- Retry constant MAX_RETRY_ATTEMPTS of APIKeyService. -/
def MAX_RETRY_ATTEMPTS : Nat := 5

/-- The filter actually used by the quota queries in api_keys_service.py
(lines 57-62 and 140-145): `is_active AND is_revoked AND expires_at > now`.
Note the bare `APIKey.is_revoked` conjunct of the source, not its negation. -/
def code_quota_pred (k : APIKey) (now : Int) : Bool :=
  k.is_active && k.is_revoked && dt_gt k.expires_at (service_quota_now now)

/-- The active-key count computed inside create_api_key and
rollover_api_key: number of the user's keys passing `code_quota_pred`. -/
def service_active_count (ks : List APIKey) (uid : Nat) (now : Int) : Nat :=
  (ks.filter (fun k => k.user_id == uid && code_quota_pred k now)).length

/-- The spec's "active key" predicate (glossary): marked active, not
revoked, and expiry strictly in the future of an aware UTC now. -/
def spec_active_key (k : APIKey) (now : Int) : Bool :=
  k.is_active && !k.is_revoked && dt_gt k.expires_at (datetime_now_utc now)

/-- Count of a user's keys satisfying the spec's active predicate. -/
def spec_active_count (ks : List APIKey) (uid : Nat) (now : Int) : Nat :=
  (ks.filter (fun k => k.user_id == uid && spec_active_key k now)).length

/-- Models APIKeyRepository.count_active_keys (api_keys_repository.py lines
33-45): same inverted revocation conjunct, but with a NAIVE
`datetime.utcnow()` as the comparison's right-hand side. -/
def count_active_keys (ks : List APIKey) (uid : Nat) (now : Int) : Nat :=
  (ks.filter (fun k => k.user_id == uid && k.is_active && k.is_revoked
      && dt_gt k.expires_at (repo_count_now now))).length

/-- Models APIKeyRepository.get_user_keys (api_keys_repository.py lines
47-63) with include_expired = False: filters with the same predicate as
count_active_keys against the naive `repo_list_now`. -/
def get_user_keys (ks : List APIKey) (uid : Nat) (now : Int) : List APIKey :=
  ks.filter (fun k => k.user_id == uid && k.is_active && k.is_revoked
      && dt_gt k.expires_at (repo_list_now now))

/-- True when some stored key already has this hash (the unique-constraint
violation that makes `await db.flush()` raise IntegrityError). -/
def hash_collides (ks : List APIKey) (h : String) : Bool :=
  ks.any (fun k => k.key_hash == h)

/-- The collision-retry loop of create_api_key / rollover_api_key: draw up
to `fuel` fresh secrets starting at index `i`, returning the first whose
hash is not already stored, or none when all attempts collide. -/
def find_fresh_secret (hashFn : String → String) (secrets : Nat → String)
    (ks : List APIKey) : Nat → Nat → Option String
  | _, 0 => none
  | i, fuel + 1 =>
    let s := secrets i
    if hash_collides ks (hashFn s) then
      find_fresh_secret hashFn secrets ks (i + 1) fuel
    else
      some s

/-- Models APIKeyService.create_api_key (api_keys_service.py lines 24-95):
parse and normalize the expiry, count the user's keys with the service
quota filter, fail quotaExceeded at MAX_ACTIVE_KEYS, then insert a fresh
key (key_prefix = first 20 chars of the secret) with collision retry.
The whole body runs under `async with db.begin()`, so the first component
is the stored key list after the unit of work: updated on success,
the original list when any error is raised (rollback). The second
component is the plaintext secret or the raised error. -/
def create_api_key (hashFn : String → String) (secrets : Nat → String)
    (ks : List APIKey) (uid nextId : Nat) (name : String)
    (perms : List String) (expiry : String) (now : Int) :
    List APIKey × Except KeyError String :=
  match parse_expiry expiry now with
  | .error e => (ks, .error e)
  | .ok d =>
    if MAX_ACTIVE_KEYS ≤ service_active_count ks uid now then
      (ks, .error .quotaExceeded)
    else
      match find_fresh_secret hashFn secrets ks 0 MAX_RETRY_ATTEMPTS with
      | none => (ks, .error .keyGenExhausted)
      | some s =>
        (ks ++ [⟨nextId, uid, name, hashFn s, s.take 20, perms,
                 true, false, tz_normalize d⟩], .ok s)

/-- Sets is_revoked on the key with the given id (rollover line 182,
revoke line 216). -/
def revoke_key (ks : List APIKey) (kid : Nat) : List APIKey :=
  ks.map (fun k => if k.id == kid then { k with is_revoked := true } else k)

/-- Models APIKeyService.rollover_api_key (api_keys_service.py lines
97-184): parse/normalize the new expiry; load the key scoped to the user
(LookupError if absent); fail notExpiredYet while `expires_at > now`;
fail alreadyRevoked; re-run the quota count with the same service filter;
generate the successor with collision retry, copying name and permissions;
finally revoke the original. All inside one `async with db.begin()`: the
first component is the stored key list after the unit of work (updated on
success, unchanged when an error rolls the transaction back), the second
the plaintext successor secret or the raised error. -/
def rollover_api_key (hashFn : String → String) (secrets : Nat → String)
    (ks : List APIKey) (uid nextId expired_key_id : Nat)
    (new_expiry : String) (now : Int) :
    List APIKey × Except KeyError String :=
  match parse_expiry new_expiry now with
  | .error e => (ks, .error e)
  | .ok d =>
    match ks.find? (fun k => k.id == expired_key_id && k.user_id == uid) with
    | none => (ks, .error .keyNotFound)
    | some ek =>
      if dt_gt ek.expires_at (rollover_expiry_now now) then
        (ks, .error .notExpiredYet)
      else if ek.is_revoked then
        (ks, .error .alreadyRevoked)
      else if MAX_ACTIVE_KEYS ≤ service_active_count ks uid now then
        (ks, .error .quotaExceeded)
      else
        match find_fresh_secret hashFn secrets ks 0 MAX_RETRY_ATTEMPTS with
        | none => (ks, .error .keyGenExhausted)
        | some s =>
          (revoke_key ks ek.id ++
             [⟨nextId, uid, ek.name, hashFn s, s.take 20, ek.permissions,
               true, false, tz_normalize d⟩], .ok s)

/-- Transaction status enum (src/models/transaction_model.py). -/
inductive TransactionStatus where
  | pending
  | success
  | failed
deriving DecidableEq, Repr

/-- Transaction type enum (src/models/transaction_model.py). -/
inductive TransactionType where
  | deposit
  | transfer
deriving DecidableEq, Repr

/-- A Transaction row (src/models/transaction_model.py). -/
structure Transaction where
  id : Nat
  user_id : Nat
  reference : String
  type : TransactionType
  amount : ℚ
  status : TransactionStatus
  recipient_wallet_number : Option String
  recipient_user_id : Option Nat
  created_at : Int
deriving DecidableEq, Repr

/-- A Wallet row (src/models/wallet_model.py). -/
structure Wallet where
  id : Nat
  user_id : Nat
  wallet_number : String
  balance : ℚ
  updated_at : Int
deriving DecidableEq, Repr

/-- The backing store: all Wallet, Transaction and APIKey rows. -/
structure Store where
  wallets : List Wallet
  transactions : List Transaction
  api_keys : List APIKey
deriving DecidableEq, Repr

/-- ValueError / LookupError variants raised by transfer_funds. -/
inductive TransferError where
  | invalidAmount
  | senderWalletMissing
  | insufficientBalance
  | recipientNotFound
  | selfTransfer
deriving DecidableEq, Repr

/-- Models WalletService.transfer_funds (src/services/wallet_service.py
lines 133-209). Checks in source order: amount <= 0; sender wallet by
user id; sender balance < amount; recipient wallet by public wallet
number; self-transfer by internal wallet id. On success, inside the one
committed unit: debit sender, credit recipient, stamp both, append one
SUCCESS transfer Transaction recording sender, amount, recipient wallet
number and recipient user id. The first component of the result is the
committed store (the input store when any error rolls back the unit of
work), the second the raised error if any. -/
def transfer_funds (s : Store) (sender_id : Nat)
    (recipient_wallet_number : String) (amount : ℚ)
    (reference : String) (next_txn_id : Nat) (now : Int) :
    Store × Option TransferError :=
  if amount ≤ 0 then (s, some .invalidAmount)
  else
    match s.wallets.find? (fun w => w.user_id == sender_id) with
    | none => (s, some .senderWalletMissing)
    | some sender_wallet =>
      if sender_wallet.balance < amount then (s, some .insufficientBalance)
      else
        match s.wallets.find?
            (fun w => w.wallet_number == recipient_wallet_number) with
        | none => (s, some .recipientNotFound)
        | some recipient_wallet =>
          if sender_wallet.id == recipient_wallet.id then (s, some .selfTransfer)
          else
            ({ s with
              wallets := s.wallets.map (fun w =>
                if w.id == sender_wallet.id then
                  { w with balance := w.balance - amount, updated_at := now }
                else if w.id == recipient_wallet.id then
                  { w with balance := w.balance + amount, updated_at := now }
                else w),
              transactions := s.transactions ++
                [⟨next_txn_id, sender_id, reference, .transfer, amount,
                  .success, some recipient_wallet_number,
                  some recipient_wallet.user_id, now⟩] }, none)

/-- Models WalletService.get_or_create_wallet (wallet_service.py lines
27-46): return the user's wallet, or insert a fresh zero-balance wallet
(id and generated wallet number supplied) when none exists. -/
def get_or_create_wallet (s : Store) (uid : Nat)
    (fresh_wallet_id : Nat) (fresh_wallet_number : String) (now : Int) :
    Store × Wallet :=
  match s.wallets.find? (fun w => w.user_id == uid) with
  | some w => (s, w)
  | none =>
    let w : Wallet := ⟨fresh_wallet_id, uid, fresh_wallet_number, 0, now⟩
    ({ s with wallets := s.wallets ++ [w] }, w)

/-- Models WalletService.get_balance (wallet_service.py lines 211-223):
delegates to get_or_create_wallet and returns that wallet's balance. -/
def get_balance (s : Store) (uid : Nat)
    (fresh_wallet_id : Nat) (fresh_wallet_number : String) (now : Int) :
    Store × ℚ :=
  let p := get_or_create_wallet s uid fresh_wallet_id fresh_wallet_number now
  (p.1, p.2.balance)

/-- The ORDER BY created_at DESC relation of get_transactions. -/
def newest_first (a b : Transaction) : Prop := b.created_at ≤ a.created_at

instance : DecidableRel newest_first := fun a b =>
  inferInstanceAs (Decidable (b.created_at ≤ a.created_at))

instance : IsTotal Transaction newest_first :=
  ⟨fun a b => le_total b.created_at a.created_at⟩

instance : IsTrans Transaction newest_first :=
  ⟨fun _ _ _ h h' => le_trans h' h⟩

/-- Models WalletService.get_transactions (wallet_service.py lines
225-241): the user's transactions ordered by created_at descending; the
store is returned unchanged. -/
def get_transactions (s : Store) (uid : Nat) : Store × List Transaction :=
  (s, List.insertionSort newest_first
        (s.transactions.filter (fun t => t.user_id == uid)))

/-- Kobo-to-naira conversion of the Webhook Reconciler
(webhook_service.py line 115): `Decimal(amount_in_kobo) / 100`, exact. -/
def kobo_to_naira (amount_in_kobo : Int) : ℚ := (amount_in_kobo : ℚ) / 100

/-- Python `int()` on an exact decimal value: truncation toward zero.
For q = num/den with den > 0 this is the T-division of num by den. -/
def py_int (q : ℚ) : Int := Int.tdiv q.num q.den

/-- Naira-to-kobo conversion of the Gateway Client
(paystack_service.py line 59): `int(amount * 100)`. -/
def naira_to_kobo (amount : ℚ) : Int := py_int (amount * 100)

/-- ValueError / LookupError variants raised by webhook processing. -/
inductive WebhookError where
  | missingSignature
  | invalidSignature
  | missingData
  | transactionNotFound
  | amountMismatch
  | walletNotFound
deriving DecidableEq, Repr

/-- Outcome of one webhook delivery: the bool returned by the service
(processed / not processed) or the exception it raises. -/
inductive WebhookOutcome where
  | processed
  | notProcessed
  | errored (e : WebhookError)
deriving DecidableEq, Repr

/-- Updates the status of every transaction with the given reference
(the ORM mutation `transaction.status = ...` followed by commit; the
reference column is unique, so at most one row is affected). -/
def set_txn_status (ts : List Transaction) (reference : String)
    (st : TransactionStatus) : List Transaction :=
  ts.map (fun t => if t.reference == reference then { t with status := st }
                   else t)

/-- Credits the wallet of the given user (`wallet.balance += amount`
plus timestamp update; user_id is unique across wallets). -/
def credit_wallet (ws : List Wallet) (uid : Nat) (amount : ℚ) (now : Int) :
    List Wallet :=
  ws.map (fun w => if w.user_id == uid then
                     { w with balance := w.balance + amount, updated_at := now }
                   else w)

/-- Models WebhookService._process_deposit (webhook_service.py lines
77-153). Source order: look up the transaction by reference (LookupError
if absent); return False without mutation when its status is already
SUCCESS; convert kobo to naira and compare with the stored amount,
marking FAILED and raising on mismatch; on gateway status "success" mark
SUCCESS and credit the owner's wallet in the same commit; otherwise mark
FAILED and return False. A raised error after no commit leaves the store
unchanged; the amount-mismatch path commits the FAILED status before
raising, exactly as the source does. -/
def process_deposit (s : Store) (reference : String) (amount_in_kobo : Int)
    (paystack_status : Option String) (now : Int) : Store × WebhookOutcome :=
  match s.transactions.find? (fun t => t.reference == reference) with
  | none => (s, .errored .transactionNotFound)
  | some transaction =>
    if transaction.status == .success then (s, .notProcessed)
    else
      if !(kobo_to_naira amount_in_kobo == transaction.amount) then
        ({ s with transactions := set_txn_status s.transactions reference .failed },
         .errored .amountMismatch)
      else if paystack_status == some "success" then
        match s.wallets.find? (fun w => w.user_id == transaction.user_id) with
        | none => (s, .errored .walletNotFound)
        | some _ =>
          ({ s with
             transactions := set_txn_status s.transactions reference .success,
             wallets := credit_wallet s.wallets transaction.user_id
               (kobo_to_naira amount_in_kobo) now },
           .processed)
      else
        ({ s with transactions := set_txn_status s.transactions reference .failed },
         .notProcessed)

/-- The fields process_paystack_webhook extracts from the parsed JSON
body: event, data.reference, data.amount, data.status; `none` models an
absent field. -/
structure WebhookData where
  event : Option String
  reference : Option String
  amount : Option Int
  status : Option String
deriving DecidableEq, Repr

/-- Python truthiness of an optional string (`not reference` is True for
both an absent field and the empty string). -/
def py_truthy_str : Option String → Bool
  | none => false
  | some s => !(s == "")

/-- Python truthiness of an optional integer (`not amount_in_kobo` is
True for both an absent field and the value 0). -/
def py_truthy_int : Option Int → Bool
  | none => false
  | some n => !(n == 0)

/-- Models WebhookService.process_paystack_webhook (webhook_service.py
lines 23-75). Source order: empty signature raises; invalid signature
raises (signature_valid models the HMAC comparison on the raw body);
events other than charge.success are ignored with False; a falsy
reference or falsy amount raises the missing-required-data ValueError
before any transaction lookup; otherwise delegate to _process_deposit. -/
def process_paystack_webhook (s : Store) (signature : String)
    (signature_valid : Bool) (w : WebhookData) (now : Int) :
    Store × WebhookOutcome :=
  if signature == "" then (s, .errored .missingSignature)
  else if !signature_valid then (s, .errored .invalidSignature)
  else if !(w.event == some "charge.success") then (s, .notProcessed)
  else if !(py_truthy_str w.reference) || !(py_truthy_int w.amount) then
    (s, .errored .missingData)
  else
    process_deposit s (w.reference.getD "") (w.amount.getD 0) w.status now

instance {ε α : Type} [DecidableEq ε] [DecidableEq α] :
    DecidableEq (Except ε α)
  | .error x, .error y => decidable_of_iff (x = y) (by simp)
  | .error _, .ok _ => isFalse (by simp)
  | .ok _, .error _ => isFalse (by simp)
  | .ok x, .ok y => decidable_of_iff (x = y) (by simp)

/-- A deterministic stand-in for the SHA-256 digest in concrete examples. -/
def ex_hash (s : String) : String := String.append s "-sha"

/-- A deterministic stand-in for the random secret supply in examples. -/
def ex_secrets (n : Nat) : String := String.append "sk_live_tok" (toString n)

/-- An active, unrevoked, unexpired key of user 1 (expiry far in future). -/
def ex_key (i : Nat) : APIKey :=
  ⟨i, 1, "ops", String.append "hash" (toString i), "sk_live_disp",
   ["read"], true, false, ⟨1000, true⟩⟩

/-- Five keys of user 1 that all satisfy the spec's active predicate. -/
def five_active_keys : List APIKey :=
  [ex_key 0, ex_key 1, ex_key 2, ex_key 3, ex_key 4]

/-- An expired (not revoked, still marked active) key of user 1. -/
def ex_expired_key : APIKey :=
  ⟨0, 1, "ops", "hash0", "sk_live_disp", ["read", "transfer"], true, false,
   ⟨-100, true⟩⟩

/-- Wallet of user 1 with balance 100. -/
def ex_wallet : Wallet := ⟨0, 1, "3400000000000", 100, 0⟩

/-- A deposit transaction of user 1 over 5000.00, still PENDING. -/
def ex_txn_pending : Transaction :=
  ⟨0, 1, "TXN_1", .deposit, 5000, .pending, none, none, 0⟩

/-- The same deposit transaction already marked SUCCESS. -/
def ex_txn_success : Transaction :=
  ⟨0, 1, "TXN_1", .deposit, 5000, .success, none, none, 0⟩

/-- The same deposit transaction marked FAILED. -/
def ex_txn_failed : Transaction :=
  ⟨0, 1, "TXN_1", .deposit, 5000, .failed, none, none, 0⟩

/-- Store with user 1's wallet and the PENDING deposit. -/
def store_pending : Store := ⟨[ex_wallet], [ex_txn_pending], []⟩

/-- Store with user 1's wallet and the already-SUCCESS deposit. -/
def store_success : Store := ⟨[ex_wallet], [ex_txn_success], []⟩

/-- Store with user 1's wallet and the FAILED deposit. -/
def store_failed : Store := ⟨[ex_wallet], [ex_txn_failed], []⟩

/-- Store with two wallets for the transfer scenario: user 1 holds
10000.00 in wallet "A", user 2 holds 5000.00 in wallet "B". -/
def store_transfer : Store :=
  ⟨[⟨0, 1, "A", 10000, 0⟩, ⟨1, 2, "B", 5000, 0⟩], [], []⟩

/-- A signed charge.success payload for reference TXN_1 over 500000 kobo. -/
def ex_webhook : WebhookData :=
  ⟨some "charge.success", some "TXN_1", some 500000, some "success"⟩

/-- The same payload with amount 0 (Python-falsy). -/
def ex_webhook_zero : WebhookData :=
  ⟨some "charge.success", some "TXN_1", some 0, some "success"⟩

/-- The amended status-transition relation between a transaction before
and after one webhook delivery: the reference is stable and the status
either stays unchanged or moves from a non-SUCCESS status to SUCCESS or
FAILED (SUCCESS is terminal; FAILED is not). -/
def status_transition_ok (t t2 : Transaction) : Prop :=
  t2.reference = t.reference ∧
  (t2.status = t.status ∨
    (t.status ≠ .success ∧ (t2.status = .success ∨ t2.status = .failed)))

theorem find?_map_of_pred {α : Type} (f : α → α) (p : α → Bool) (l : List α)
    (hp : ∀ x, p (f x) = p x) : (l.map f).find? p = (l.find? p).map f := by
  induction l with
  | nil => rfl
  | cons a l ih =>
    cases h : p a with
    | true =>
      rw [List.map_cons, List.find?_cons_of_pos _ (by rw [hp a]; exact h),
          List.find?_cons_of_pos _ h]
      rfl
    | false =>
      rw [List.map_cons, List.find?_cons_of_neg _ (by simp [hp a, h]),
          List.find?_cons_of_neg _ (by simp [h]), ih]

/-- Claim C7: For every non-negative integer minor-unit amount, the Webhook
Reconciler's kobo-to-naira conversion followed by the Gateway Client's
naira-to-kobo conversion recovers the amount exactly. -/
theorem amount_unit_roundtrip (a : Int) (h : 0 ≤ a) :
    naira_to_kobo (kobo_to_naira a) = a := by
  unfold naira_to_kobo kobo_to_naira py_int
  rw [div_mul_cancel₀ _ (by norm_num : (100 : ℚ) ≠ 0)]
  rw [Rat.num_intCast, Rat.den_intCast]
  exact Int.tdiv_one a

theorem amount_unit_roundtrip_witness :
    (0 : Int) ≤ 500000 ∧ naira_to_kobo (kobo_to_naira 500000) = 500000 :=
  ⟨by decide, amount_unit_roundtrip 500000 (by decide)⟩

/-- Claim C8: parse_expiry maps 1H, 1D, 1M, 1Y to now plus 1 hour, 1 day,
30 days, 365 days respectively, and rejects every other string with the
invalid-expiry ValueError. -/
theorem parse_expiry_vocabulary (e : String) (now : Int) :
    parse_expiry "1H" now = .ok ⟨now + 3600, true⟩ ∧
    parse_expiry "1D" now = .ok ⟨now + 86400, true⟩ ∧
    parse_expiry "1M" now = .ok ⟨now + 30 * 86400, true⟩ ∧
    parse_expiry "1Y" now = .ok ⟨now + 365 * 86400, true⟩ ∧
    (e ≠ "1H" → e ≠ "1D" → e ≠ "1M" → e ≠ "1Y" →
      parse_expiry e now = .error .invalidExpiry) := by
  refine ⟨rfl, rfl, rfl, rfl, fun h1 h2 h3 h4 => ?_⟩
  unfold parse_expiry
  rw [if_neg h1, if_neg h2, if_neg h3, if_neg h4]

theorem parse_expiry_vocabulary_witness :
    parse_expiry "2H" 0 = .error .invalidExpiry :=
  (parse_expiry_vocabulary "2H" 0).2.2.2.2 (by decide) (by decide)
    (by decide) (by decide)

/-- Claim C6: the service-layer expiry comparisons (quota counts in create and
rollover, rollover's not-yet-expired check) use an aware UTC now, but the
repository's count_active_keys and get_user_keys compare the stored
timezone-aware expires_at against a NAIVE datetime.utcnow, mixing naive
and aware datetimes. -/
theorem api_key_expiry_naive_aware_mixing :
    (∀ t : Int, (service_quota_now t).aware = true ∧
       (rollover_expiry_now t).aware = true ∧
       (repo_count_now t).aware = false ∧
       (repo_list_now t).aware = false) ∧
    parse_expiry "1H" 0 = .ok ⟨3600, true⟩ ∧
    mixes_naive_aware ⟨3600, true⟩ (repo_count_now 0) = true ∧
    mixes_naive_aware ⟨3600, true⟩ (repo_list_now 0) = true ∧
    mixes_naive_aware ⟨3600, true⟩ (service_quota_now 0) = false :=
  ⟨fun _ => ⟨rfl, rfl, rfl, rfl⟩, by decide, by decide, by decide, by decide⟩

/-- Claim C2: the quota check of create_api_key filters on is_active AND
is_revoked (inverted), so a user holding five keys that all satisfy the
spec's active predicate has a service count of zero and a sixth key is
created instead of QuotaExceeded being raised. -/
theorem quota_check_uses_inverted_revocation_predicate :
    spec_active_count five_active_keys 1 0 = 5 ∧
    service_active_count five_active_keys 1 0 = 0 ∧
    count_active_keys five_active_keys 1 0 = 0 ∧
    (create_api_key ex_hash ex_secrets five_active_keys 1 5 "sixth" ["read"]
        "1H" 0).2 = .ok (ex_secrets 0) ∧
    (create_api_key ex_hash ex_secrets five_active_keys 1 5 "sixth" ["read"]
        "1H" 0).1.length = 6 := by decide

/-- Claim C10: a signed, well-formed charge.success webhook whose amount is 0,
or whose reference is absent or empty, raises the missing-required-data
ValueError with the store untouched, for every store. -/
theorem webhook_zero_amount_rejected (s : Store) (sig : String)
    (w : WebhookData) (now : Int) (hsig : sig ≠ "")
    (hev : w.event = some "charge.success")
    (hz : w.amount = some 0 ∨ w.reference = none ∨ w.reference = some "") :
    process_paystack_webhook s sig true w now = (s, .errored .missingData) := by
  have hsigb : (sig == "") = false := beq_eq_false_iff_ne.mpr hsig
  rcases hz with hz | hz | hz <;>
    simp [process_paystack_webhook, hsigb, hev, hz, py_truthy_int, py_truthy_str]

theorem webhook_zero_amount_rejected_witness :
    process_paystack_webhook store_pending "sig" true ex_webhook_zero 0 =
      (store_pending, .errored .missingData) :=
  webhook_zero_amount_rejected store_pending "sig" ex_webhook_zero 0
    (by decide) (by decide) (Or.inl (by decide))

theorem find?_set_txn_status {ts : List Transaction} {ref : String}
    {txn : Transaction} (st : TransactionStatus)
    (h : ts.find? (fun t => t.reference == ref) = some txn) :
    (set_txn_status ts ref st).find? (fun t => t.reference == ref) =
      some { txn with status := st } := by
  unfold set_txn_status
  rw [find?_map_of_pred _ _ _ (fun t => by split <;> rfl), h]
  have hr := List.find?_some h
  simp [hr]
  exact fun hc => absurd (by simpa using hr) hc

theorem process_deposit_processed {s s' : Store} {ref : String} {kobo : Int}
    {st : Option String} {now : Int}
    (h : process_deposit s ref kobo st now = (s', .processed)) :
    ∃ txn, s.transactions.find? (fun t => t.reference == ref) = some txn ∧
      txn.status ≠ .success ∧
      kobo_to_naira kobo = txn.amount ∧
      st = some "success" ∧
      s' = { s with
             transactions := set_txn_status s.transactions ref .success,
             wallets := credit_wallet s.wallets txn.user_id
               (kobo_to_naira kobo) now } := by
  unfold process_deposit at h
  split at h
  next hfind => simp at h
  next txn hfind =>
    split at h
    next hs => simp at h
    next hs =>
      split at h
      next hmm2 => simp at h
      next hmm2 =>
        split at h
        next hsucc =>
          split at h
          next hw => simp at h
          next w0 hw =>
            injection h with h1 h2
            exact ⟨txn, hfind, by simpa using hs, by simpa using hmm2,
                   by simpa using hsucc, h1.symm⟩
        next hnsucc => simp at h

theorem process_webhook_processed {s s' : Store} {sig : String}
    {w : WebhookData} {now : Int}
    (h : process_paystack_webhook s sig true w now = (s', .processed)) :
    (sig == "") = false ∧ (w.event == some "charge.success") = true ∧
    py_truthy_str w.reference = true ∧ py_truthy_int w.amount = true ∧
    process_deposit s (w.reference.getD "") (w.amount.getD 0) w.status now =
      (s', .processed) := by
  unfold process_paystack_webhook at h
  split at h
  · simp at h
  next h1 =>
    split at h
    next h2 => simp at h2
    next h2 =>
      split at h
      next h3 => simp at h
      next h3 =>
        split at h
        next h4 => simp at h
        next h4 =>
          have htr : py_truthy_str w.reference = true ∧
              py_truthy_int w.amount = true := by
            simpa [Bool.or_eq_true, Bool.not_eq_true'] using h4
          exact ⟨by simpa using h1, by simpa using h3, htr.1, htr.2, h⟩

/-- Claim C1: webhook processing is idempotent for success events. First part:
a deposit transaction already marked SUCCESS makes _process_deposit
return False ("not processed") with the store completely unchanged.
Second part: after any successfully processed delivery, redelivering the
identical signed event returns False and leaves the store exactly as the
first delivery left it, so the wallet is credited exactly once. -/
theorem webhook_success_idempotent (s : Store) :
    (∀ ref kobo st now txn,
        s.transactions.find? (fun t => t.reference == ref) = some txn →
        txn.status = .success →
        process_deposit s ref kobo st now = (s, .notProcessed)) ∧
    (∀ sig w now now2 s',
        process_paystack_webhook s sig true w now = (s', .processed) →
        process_paystack_webhook s' sig true w now2 = (s', .notProcessed)) := by
  constructor
  · intro ref kobo st now txn hfind hst
    unfold process_deposit
    rw [hfind]
    simp [hst]
  · intro sig w now now2 s' h
    obtain ⟨hsig, hev, href, hamt, hdep⟩ := process_webhook_processed h
    obtain ⟨txn, hfind, hns, hmm, hst, hs'⟩ := process_deposit_processed hdep
    have hfind2 := find?_set_txn_status TransactionStatus.success hfind
    subst hs'
    unfold process_paystack_webhook
    simp only [hsig, hev, href, hamt, Bool.not_true, Bool.not_false,
      Bool.false_eq_true, if_false, Bool.or_self, Bool.true_eq_false]
    unfold process_deposit
    dsimp only
    rw [hfind2]
    simp

theorem webhook_success_idempotent_witness :
    ex_txn_success.status = .success ∧
    process_deposit store_success "TXN_1" 500000 (some "success") 5 =
      (store_success, .notProcessed) :=
  ⟨rfl, (webhook_success_idempotent store_success).1 "TXN_1" 500000
      (some "success") 5 ex_txn_success (by decide) rfl⟩

theorem forall₂_map_self {α : Type} {R : α → α → Prop} (f : α → α) :
    ∀ l : List α, (∀ x ∈ l, R x (f x)) → List.Forall₂ R l (l.map f)
  | [], _ => .nil
  | a :: l, h =>
    .cons (h a (List.mem_cons_self a l))
      (forall₂_map_self f l fun x hx => h x (List.mem_cons_of_mem a hx))

theorem forall₂_self {α : Type} {R : α → α → Prop} (l : List α)
    (h : ∀ x ∈ l, R x x) : List.Forall₂ R l l := by
  simpa using forall₂_map_self id l h

theorem find?_mem_unique {l : List Transaction} {ref : String}
    {txn : Transaction}
    (hnd : (l.map (fun t => t.reference)).Nodup)
    (hf : l.find? (fun t => t.reference == ref) = some txn) :
    ∀ t ∈ l, t.reference = ref → t = txn := by
  induction l with
  | nil => simp at hf
  | cons a l ih =>
    rw [List.map_cons, List.nodup_cons] at hnd
    intro t ht href
    rcases List.mem_cons.mp ht with rfl | htl
    · rw [List.find?_cons_of_pos _ (by simp [href])] at hf
      exact Option.some.inj hf
    · by_cases ha : a.reference = ref
      · exfalso
        apply hnd.1
        have hmem : t.reference ∈ l.map (fun t => t.reference) :=
          List.mem_map_of_mem _ htl
        rw [href, ← ha] at hmem
        exact hmem
      · rw [List.find?_cons_of_neg _ (by simp [ha])] at hf
        exact ih hnd.2 hf t htl href

theorem status_transition_set_txn {s : List Transaction} {ref : String}
    {txn : Transaction} {stNew : TransactionStatus}
    (hnew : stNew = .success ∨ stNew = .failed)
    (hnd : (s.map (fun t => t.reference)).Nodup)
    (hfind : s.find? (fun t => t.reference == ref) = some txn)
    (hts : txn.status ≠ .success) :
    List.Forall₂ status_transition_ok s (set_txn_status s ref stNew) := by
  unfold set_txn_status
  apply forall₂_map_self
  intro t ht
  by_cases h : (t.reference == ref) = true
  · have hteq : t = txn := find?_mem_unique hnd hfind t ht (by simpa using h)
    exact ⟨by simp [h], Or.inr ⟨hteq ▸ hts, by simpa [h] using hnew⟩⟩
  · exact ⟨by simp [h], Or.inl (by simp [h])⟩

/-- Claim C3 amended: under webhook processing the reference of every stored
transaction is stable and its status either stays unchanged or moves
from a non-SUCCESS status to SUCCESS or FAILED. In particular SUCCESS is
terminal, and PENDING moves only to SUCCESS or FAILED; but FAILED is not
terminal: it is reprocessed like PENDING and can become SUCCESS again. -/
theorem webhook_status_transitions (s : Store) (ref : String) (kobo : Int)
    (st : Option String) (now : Int)
    (hnd : (s.transactions.map (fun t => t.reference)).Nodup) :
    List.Forall₂ status_transition_ok s.transactions
      (process_deposit s ref kobo st now).1.transactions := by
  have hrefl : ∀ l : List Transaction, List.Forall₂ status_transition_ok l l :=
    fun l => forall₂_self l (fun t _ => ⟨rfl, Or.inl rfl⟩)
  unfold process_deposit
  split
  next hfind => exact hrefl _
  next txn hfind =>
    split
    next hs => exact hrefl _
    next hs =>
      have hts : txn.status ≠ .success := by simpa using hs
      split
      next hmm2 => exact status_transition_set_txn (Or.inr rfl) hnd hfind hts
      next hmm2 =>
        split
        next hsucc =>
          split
          next hw => exact hrefl _
          next w0 hw =>
            exact status_transition_set_txn (Or.inl rfl) hnd hfind hts
        next hnsucc => exact status_transition_set_txn (Or.inr rfl) hnd hfind hts

theorem webhook_status_transitions_witness :
    List.Forall₂ status_transition_ok store_pending.transactions
      (process_deposit store_pending "TXN_1" 500000 (some "success")
        5).1.transactions :=
  webhook_status_transitions store_pending "TXN_1" 500000 (some "success") 5
    (by decide)

/-- Claim C3 counterexample: in a store whose only transaction is a FAILED
deposit over 5000.00, a redelivered matching charge.success webhook is
processed: the FAILED transaction becomes SUCCESS and the owner's wallet
is credited from 100.00 to 5100.00, so FAILED is not terminal. -/
theorem failed_transaction_recredited :
    ex_txn_failed.status = .failed ∧
    (process_deposit store_failed "TXN_1" 500000 (some "success") 5).2 =
      .processed ∧
    ((process_deposit store_failed "TXN_1" 500000 (some "success")
        5).1.transactions.map (fun t => t.status)) = [.success] ∧
    ((process_deposit store_failed "TXN_1" 500000 (some "success")
        5).1.wallets.map (fun w => w.balance)) = [5100] := by
  refine ⟨rfl, ?_, ?_, ?_⟩ <;>
    norm_num [process_deposit, kobo_to_naira, set_txn_status, credit_wallet,
      store_failed, ex_txn_failed, ex_wallet] <;>
    decide

theorem transfer_funds_ok {s : Store} {sid : Nat} {rwn ref : String} {q : ℚ}
    {nid : Nat} {now : Int}
    (h : (transfer_funds s sid rwn q ref nid now).2 = none) :
    ∃ sw rcpt,
      s.wallets.find? (fun w => w.user_id == sid) = some sw ∧
      s.wallets.find? (fun w => w.wallet_number == rwn) = some rcpt ∧
      ¬ q ≤ 0 ∧ ¬ sw.balance < q ∧ sw.id ≠ rcpt.id ∧
      transfer_funds s sid rwn q ref nid now =
        ({ s with
           wallets := s.wallets.map (fun w =>
             if w.id == sw.id then
               { w with balance := w.balance - q, updated_at := now }
             else if w.id == rcpt.id then
               { w with balance := w.balance + q, updated_at := now }
             else w),
           transactions := s.transactions ++
             [⟨nid, sid, ref, .transfer, q, .success, some rwn,
               some rcpt.user_id, now⟩] }, none) := by
  revert h
  unfold transfer_funds
  split
  next hle => intro h; simp at h
  next hle =>
    split
    next hsw => intro h; simp at h
    next sw hsw =>
      split
      next hlt => intro h; simp at h
      next hlt =>
        split
        next hrw => intro h; simp at h
        next rcpt hrw =>
          split
          next heq => intro h; simp at h
          next heq =>
            intro _
            exact ⟨sw, rcpt, hsw, hrw, hle, hlt, by simpa using heq, rfl⟩

/-- Claim C4: transfer_funds conserves money and is all-or-nothing. On success
the sender wallet is debited exactly the amount, the recipient wallet is
credited exactly the amount, the two balances sum to what they summed to
before, exactly one SUCCESS transfer Transaction recording sender,
amount, recipient wallet number and recipient user id is appended, and
the API keys are untouched; on any failure (non-positive amount, missing
sender wallet, insufficient balance, unknown recipient, self-transfer)
the committed store is exactly the input store. -/
theorem transfer_funds_conservation (s : Store) (sid : Nat) (rwn ref : String)
    (q : ℚ) (nid : Nat) (now : Int) :
    ((transfer_funds s sid rwn q ref nid now).2 = none →
      ∃ sw rcpt,
        s.wallets.find? (fun w => w.user_id == sid) = some sw ∧
        s.wallets.find? (fun w => w.wallet_number == rwn) = some rcpt ∧
        0 < q ∧ q ≤ sw.balance ∧ sw.id ≠ rcpt.id ∧
        (transfer_funds s sid rwn q ref nid now).1.wallets.find?
            (fun w => w.user_id == sid) =
          some { sw with balance := sw.balance - q, updated_at := now } ∧
        (transfer_funds s sid rwn q ref nid now).1.wallets.find?
            (fun w => w.wallet_number == rwn) =
          some { rcpt with balance := rcpt.balance + q, updated_at := now } ∧
        (sw.balance - q) + (rcpt.balance + q) = sw.balance + rcpt.balance ∧
        (transfer_funds s sid rwn q ref nid now).1.transactions =
          s.transactions ++
            [⟨nid, sid, ref, .transfer, q, .success, some rwn,
              some rcpt.user_id, now⟩] ∧
        (transfer_funds s sid rwn q ref nid now).1.api_keys = s.api_keys) ∧
    (∀ e, (transfer_funds s sid rwn q ref nid now).2 = some e →
      (transfer_funds s sid rwn q ref nid now).1 = s) := by
  constructor
  · intro h
    obtain ⟨sw, rcpt, hsw, hrw, hle, hlt, hne, heq⟩ := transfer_funds_ok h
    have hne2 : rcpt.id ≠ sw.id := Ne.symm hne
    refine ⟨sw, rcpt, hsw, hrw, not_le.mp hle, not_lt.mp hlt, hne, ?_, ?_,
      by ring, ?_, ?_⟩
    · rw [heq]
      dsimp only
      rw [find?_map_of_pred _ _ _
        (fun x => by split <;> (try rfl) <;> (split <;> rfl)), hsw]
      simp
    · rw [heq]
      dsimp only
      rw [find?_map_of_pred _ _ _
        (fun x => by split <;> (try rfl) <;> (split <;> rfl)), hrw]
      simp [hne2]
    · rw [heq]
    · rw [heq]
  · intro e h
    revert h
    unfold transfer_funds
    split
    · intro _; rfl
    · split
      · intro _; rfl
      · split
        · intro _; rfl
        · split
          · intro _; rfl
          · split
            · intro _; rfl
            · intro h; simp at h

theorem transfer_funds_conservation_witness :
    ∃ sw rcpt,
      store_transfer.wallets.find? (fun w => w.user_id == 1) = some sw ∧
      store_transfer.wallets.find? (fun w => w.wallet_number == "B") =
        some rcpt ∧
      0 < (3000 : ℚ) ∧ (3000 : ℚ) ≤ sw.balance ∧ sw.id ≠ rcpt.id ∧
      (transfer_funds store_transfer 1 "B" 3000 "TXN_T" 7 1).1.wallets.find?
          (fun w => w.user_id == 1) =
        some { sw with balance := sw.balance - 3000, updated_at := 1 } ∧
      (transfer_funds store_transfer 1 "B" 3000 "TXN_T" 7 1).1.wallets.find?
          (fun w => w.wallet_number == "B") =
        some { rcpt with balance := rcpt.balance + 3000, updated_at := 1 } ∧
      (sw.balance - 3000) + (rcpt.balance + 3000) = sw.balance + rcpt.balance ∧
      (transfer_funds store_transfer 1 "B" 3000 "TXN_T" 7 1).1.transactions =
        store_transfer.transactions ++
          [⟨7, 1, "TXN_T", .transfer, 3000, .success, some "B",
            some rcpt.user_id, 1⟩] ∧
      (transfer_funds store_transfer 1 "B" 3000 "TXN_T" 7 1).1.api_keys =
        store_transfer.api_keys :=
  (transfer_funds_conservation store_transfer 1 "B" "TXN_T" 3000 7 1).1
    (by decide)

/-- Claim C5: rollover is atomic. On success the target key was found for the
caller, was expired and unrevoked, the stored keys become exactly the
original list with the target revoked plus one new key carrying the
original's name and permission set, active, unrevoked, with the parsed
new expiry; the revoked original is present and is the only key with its
id among the pre-existing keys. On any failure (bad expiry code, key not
found, not yet expired, already revoked, quota exceeded, generation
exhausted) the stored keys are exactly the input keys. -/
theorem rollover_api_key_atomic (hashFn : String → String)
    (secrets : Nat → String) (ks : List APIKey) (uid nid kid : Nat)
    (ne : String) (now : Int)
    (hnd : (ks.map (fun k => k.id)).Nodup) :
    (∀ secret,
        (rollover_api_key hashFn secrets ks uid nid kid ne now).2 =
          .ok secret →
        ∃ ek d,
          ks.find? (fun k => k.id == kid && k.user_id == uid) = some ek ∧
          parse_expiry ne now = .ok d ∧
          ek.is_revoked = false ∧ ek.expires_at.t ≤ now ∧
          (rollover_api_key hashFn secrets ks uid nid kid ne now).1 =
            revoke_key ks ek.id ++
              [⟨nid, uid, ek.name, hashFn secret, secret.take 20,
                ek.permissions, true, false, tz_normalize d⟩] ∧
          { ek with is_revoked := true } ∈
            (rollover_api_key hashFn secrets ks uid nid kid ne now).1 ∧
          (∀ k ∈ revoke_key ks ek.id, k.id = ek.id →
            k = { ek with is_revoked := true })) ∧
    (∀ e, (rollover_api_key hashFn secrets ks uid nid kid ne now).2 =
        .error e →
      (rollover_api_key hashFn secrets ks uid nid kid ne now).1 = ks) := by
  constructor
  · intro secret h
    revert h
    unfold rollover_api_key
    split
    next hpe => intro h; simp at h
    next d hpe =>
      split
      next hfind => intro h; simp at h
      next ek hfind =>
        split
        next hexp => intro h; simp at h
        next hexp =>
          split
          next hrev => intro h; simp at h
          next hrev =>
            split
            next hquota => intro h; simp at h
            next hquota =>
              split
              next hgen => intro h; simp at h
              next s0 hgen =>
                intro h
                have hsec : s0 = secret := by simpa using h
                subst hsec
                have hek : ek ∈ ks := List.mem_of_find?_eq_some hfind
                have hfek : (if (ek.id == ek.id) = true then
                    { ek with is_revoked := true } else ek) =
                    { ek with is_revoked := true } := by simp
                refine ⟨ek, d, hfind, hpe, by simpa using hrev,
                  by simpa [dt_gt, rollover_expiry_now, datetime_now_utc]
                    using hexp, rfl, ?_, ?_⟩
                · exact List.mem_append_left _
                    (hfek ▸ List.mem_map_of_mem _ hek)
                · intro k hk hkid
                  obtain ⟨k0, hk0, hk0eq⟩ := List.mem_map.mp hk
                  by_cases hc : (k0.id == ek.id) = true
                  · have : k0 = ek := List.inj_on_of_nodup_map hnd hk0 hek
                      (by simpa using hc)
                    subst this
                    rw [← hk0eq, if_pos hc]
                  · rw [← hk0eq, if_neg hc] at hkid ⊢
                    exact absurd hkid (by simpa using hc)
  · intro e h
    revert h
    unfold rollover_api_key
    split
    · intro _; rfl
    · split
      · intro _; rfl
      · split
        · intro _; rfl
        · split
          · intro _; rfl
          · split
            · intro _; rfl
            · split
              · intro _; rfl
              · intro h; simp at h

theorem rollover_api_key_atomic_witness :
    ∃ ek d,
      [ex_expired_key].find? (fun k => k.id == 0 && k.user_id == 1) =
        some ek ∧
      parse_expiry "1H" 0 = .ok d ∧
      ek.is_revoked = false ∧ ek.expires_at.t ≤ 0 ∧
      (rollover_api_key ex_hash ex_secrets [ex_expired_key] 1 1 0
          "1H" 0).1 =
        revoke_key [ex_expired_key] ek.id ++
          [⟨1, 1, ek.name, ex_hash (ex_secrets 0), (ex_secrets 0).take 20,
            ek.permissions, true, false, tz_normalize d⟩] ∧
      { ek with is_revoked := true } ∈
        (rollover_api_key ex_hash ex_secrets [ex_expired_key] 1 1 0
          "1H" 0).1 ∧
      (∀ k ∈ revoke_key [ex_expired_key] ek.id, k.id = ek.id →
        k = { ek with is_revoked := true }) :=
  (rollover_api_key_atomic ex_hash ex_secrets [ex_expired_key] 1 1 0 "1H" 0
    (by decide)).1 (ex_secrets 0) (by decide)

/-- Claim C9 amended: get_transactions is read-only and returns exactly the
user's transactions ordered newest-first, and get_balance is read-only
whenever the user already has a wallet; for a user without a wallet,
get_balance lazily creates exactly one fresh zero-balance wallet
(appending it to the wallets) and returns balance 0. -/
theorem read_queries_read_only (s : Store) (uid fid : Nat) (wn : String)
    (now : Int) :
    (∀ w, s.wallets.find? (fun x => x.user_id == uid) = some w →
        get_balance s uid fid wn now = (s, w.balance)) ∧
    (s.wallets.find? (fun x => x.user_id == uid) = none →
        get_balance s uid fid wn now =
          ({ s with wallets := s.wallets ++ [⟨fid, uid, wn, 0, now⟩] }, 0)) ∧
    (get_transactions s uid).1 = s ∧
    List.Sorted newest_first (get_transactions s uid).2 ∧
    (get_transactions s uid).2.Perm
      (s.transactions.filter (fun t => t.user_id == uid)) := by
  refine ⟨?_, ?_, rfl, ?_, ?_⟩
  · intro w hw
    simp [get_balance, get_or_create_wallet, hw]
  · intro hw
    simp [get_balance, get_or_create_wallet, hw]
  · exact List.sorted_insertionSort _ _
  · exact List.perm_insertionSort _ _

theorem read_queries_read_only_witness :
    get_balance store_success 1 7 "W" 0 = (store_success, 100) :=
  (read_queries_read_only store_success 1 7 "W" 0).1 ex_wallet (by decide)

/-- Claim C9 counterexample: get_balance is not read-only for every store
state: on a store where user 1 has no wallet it inserts a fresh wallet,
changing the store. -/
theorem get_balance_creates_wallet :
    (get_balance ⟨[], [], []⟩ 1 7 "3400000000009" 0).1 ≠ ⟨[], [], []⟩ := by
  decide
